import Mathlib

/-!
Shallow embedding of `src/demo/lua-server.py`, a small HTTP server with
two handlers:

* `do_POST` — the `/api/lua` code-execution endpoint: reads `Content-Length`
  bytes of body, parses them as JSON, extracts the `code` field, runs the
  Lua interpreter as a subprocess and maps its outcome to a JSON response;
* `do_GET` — a static-file handler that joins the request path to the
  directory holding the server script and serves the file's raw bytes.

External effects are modelled as explicit inputs:

* `json.loads` is an oracle `String → Except String Json` (success value or
  the exception's message);
* `subprocess.run(['lua', '-e', code], ...)` is an oracle
  `String → RunOutcome`;
* the filesystem is a finite association list from file path to byte
  contents, containing exactly the existing regular files (`os.path.isfile`);
* a response records the status code sent by `send_response`, the headers
  explicitly sent by `send_header`, and the bytes written to `wfile`.

Method dispatch is the `BaseHTTPRequestHandler` machinery from the Python
standard library: `handle_one_request` looks up a `do_<METHOD>` attribute
and answers `501 Unsupported method` when the handler class does not define
one; `LuaHandler` defines only `do_POST` and `do_GET`.
-/

/-- JSON values as produced by Python's `json.loads`: object, array,
string, number, boolean, null.  Numbers are modelled as integers — the only
numbers this server itself constructs (the `status` field). -/
inductive Json where
  | null : Json
  | bool : Bool → Json
  | num : Int → Json
  | str : String → Json
  | arr : List Json → Json
  | obj : List (String × Json) → Json

/-- Python's type name for each JSON value, as it appears in
`AttributeError` / `TypeError` messages. -/
def pyTypeName : Json → String
  | .null => "NoneType"
  | .bool _ => "bool"
  | .num _ => "int"
  | .str _ => "str"
  | .arr _ => "list"
  | .obj _ => "dict"

/-- Response body: nothing written, a JSON document (`wfile.write` of
`json.dumps(...)`), a static file's raw bytes, or the HTML page produced by
`BaseHTTPRequestHandler.send_error` (recorded by its message). -/
inductive Body where
  | empty : Body
  | json : Json → Body
  | fileBytes : List Nat → Body
  | errorPage : String → Body

/-- An inbound HTTP request: method, path, the raw value of the
`Content-Length` header when present, and the readable body stream. -/
structure Request where
  method : String
  path : String
  contentLength : Option String
  body : String

/-- An outbound HTTP response: the status given to `send_response`, the
headers passed to `send_header` (in order), and the body written. -/
structure Response where
  statusCode : Nat
  headers : List (String × String)
  body : Body

/-- Outcome of `subprocess.run(['lua', '-e', code], capture_output=True,
text=True, timeout=5)`: completion with a return code, stdout and stderr;
`subprocess.TimeoutExpired`; `FileNotFoundError`; or any other exception
(carrying `str(e)`). -/
inductive RunOutcome where
  | completed : Int → String → String → RunOutcome
  | timeoutExpired : RunOutcome
  | fileNotFound : RunOutcome
  | otherFailure : String → RunOutcome

/-- Numeric value of a decimal digit character. -/
def digitVal (c : Char) : Nat := c.toNat - 48

/-- Accumulating parser for the digit part accepted by Python's `int()`:
decimal digits with single underscores allowed between digits. -/
def parseDigitsAux : List Char → Nat → Option Nat
  | [], acc => some acc
  | '_' :: c :: rest, acc =>
      if c.isDigit then parseDigitsAux rest (acc * 10 + digitVal c) else none
  | c :: rest, acc =>
      if c.isDigit then parseDigitsAux rest (acc * 10 + digitVal c) else none

/-- Digit-string parser for `int()`: nonempty, may not begin with an
underscore. -/
def parseDigits : List Char → Option Nat
  | [] => none
  | '_' :: _ => none
  | cs => parseDigitsAux cs 0

/-- ASCII whitespace recognised by Python's `str.strip()`. -/
def isPySpace (c : Char) : Bool :=
  c == ' ' || c == '\t' || c == '\n' || c == '\r' || c == '\x0b' || c == '\x0c'

/-- Python's `str.strip()`: surrounding whitespace removed, as a character
list. -/
def pyStrip (s : String) : List Char :=
  ((s.data.dropWhile isPySpace).reverse.dropWhile isPySpace).reverse

/-- Python's `int(s)` on a string: strips surrounding whitespace, allows one
leading sign, then a nonempty run of decimal digits (underscores permitted
between digits); any other input raises `ValueError` with the message
modelled here. -/
def pyIntParse (s : String) : Except String Int :=
  let signed : Bool × List Char :=
    match pyStrip s with
    | '-' :: rest => (true, rest)
    | '+' :: rest => (false, rest)
    | cs => (false, cs)
  match parseDigits signed.2 with
  | some n => .ok (if signed.1 then -(n : Int) else (n : Int))
  | none => .error ("invalid literal for int() with base 10: '" ++ s ++ "'")

/-- Line 17 of the source: `int(self.headers.get('Content-Length', 0))`.
A missing header yields the integer default `0`; a present header is passed
through `int()`, which raises on non-numeric input. -/
def contentLengthVal : Option String → Except String Int
  | none => .ok 0
  | some s => pyIntParse s

/-- Line 18: `self.rfile.read(content_length)` — reads that many bytes of
the request stream (a negative count reads the whole stream to EOF). -/
def pyRead (stream : String) (n : Int) : String :=
  if n < 0 then stream else String.mk (stream.data.take n.toNat)

/-- Association-list lookup for JSON object fields (Python dict lookup). -/
def findField : List (String × Json) → String → Option Json
  | [], _ => none
  | (k, v) :: rest, key => if k == key then some v else findField rest key

/-- Line 20: `data.get('code', '')`.  On a dict this is a lookup with
default `''`; every non-dict JSON value lacks a `get` attribute, so the
expression raises `AttributeError` (caught by the outer handler). -/
def extractCode : Json → Except String Json
  | .obj fields => .ok ((findField fields "code").getD (.str ""))
  | j => .error ("'" ++ pyTypeName j ++ "' object has no attribute 'get'")

/-- Message of the `TypeError` raised by `subprocess.run` when the argument
list contains a non-string value. -/
def nonStringArgMsg (t : String) : String :=
  "expected str, bytes or os.PathLike object, not " ++ t

/-- Lines 23–40: the inner `try` around `subprocess.run`.  Returns the
`output` string and `status` integer.  A string `code` is handed to the
subprocess oracle; exit code 0 selects stdout, any other exit code selects
stderr, both with status 200; timeout, missing interpreter, and other
faults produce the fixed diagnostics of the source.  A non-string `code`
makes `subprocess.run` itself raise `TypeError`, landing in the generic
`except Exception` branch. -/
def runLua (oracle : String → RunOutcome) (code : Json) : String × Nat :=
  match code with
  | .str c =>
      match oracle c with
      | .completed rc out err => (if rc == 0 then out else err, 200)
      | .timeoutExpired => ("Error: Execution timeout", 408)
      | .fileNotFound => ("Error: Lua not installed. Try: brew install lua", 500)
      | .otherFailure msg => ("Error: " ++ msg, 500)
  | other => ("Error: " ++ nonStringArgMsg (pyTypeName other), 500)

/-- Lines 42–49: the response built after the inner `try` completes —
the computed status, `Content-Type: application/json`,
`Access-Control-Allow-Origin: *`, and body
`json.dumps({'result': output, 'status': status})`. -/
def resultResponse (oracle : String → RunOutcome) (code : Json) : Response :=
  let r := runLua oracle code
  { statusCode := r.2,
    headers := [("Content-Type", "application/json"),
                ("Access-Control-Allow-Origin", "*")],
    body := .json (.obj [("result", .str r.1), ("status", .num (r.2 : Int))]) }

/-- Lines 50–54: the outer `except Exception` — HTTP 500, only a
`Content-Type: application/json` header, body `json.dumps({'error': str(e)})`. -/
def outerError (msg : String) : Response :=
  { statusCode := 500,
    headers := [("Content-Type", "application/json")],
    body := .json (.obj [("error", .str msg)]) }

/-- The body of the outer `try` of `do_POST` up to the point where a
response is determined: `Content-Length` conversion, body read, JSON parse,
`code` extraction, subprocess stage.  An `.error` is an exception reaching
the outer `except Exception`. -/
def postOutcome (loads : String → Except String Json)
    (oracle : String → RunOutcome) (req : Request) : Except String Response :=
  match contentLengthVal req.contentLength with
  | .error e => .error e
  | .ok n =>
      match loads (pyRead req.body n) with
      | .error e => .error e
      | .ok parsed =>
          match extractCode parsed with
          | .error e => .error e
          | .ok code => .ok (resultResponse oracle code)

/-- Lines 14–57: `LuaHandler.do_POST`.  Path `/api/lua` runs the guarded
body with the outer `except Exception` fallback; any other path answers
404 with no headers sent and an empty body. -/
def do_POST (loads : String → Except String Json)
    (oracle : String → RunOutcome) (req : Request) : Response :=
  if req.path == "/api/lua" then
    match postOutcome loads oracle req with
    | .ok resp => resp
    | .error msg => outerError msg
  else { statusCode := 404, headers := [], body := .empty }

/-- Whether the first string is a prefix of the second (structural model of
Python's `str.startswith`). -/
def strBeginsWith (p s : String) : Bool :=
  p.data.isPrefixOf s.data

/-- Whether the first string is a suffix of the second (structural model of
Python's `str.endswith`). -/
def strFinishesWith (p s : String) : Bool :=
  p.data.isSuffixOf s.data

/-- Python's `str.lstrip('/')`: drop every leading slash. -/
def lstripSlashes (s : String) : String :=
  String.mk (s.data.dropWhile (fun c => c == '/'))

/-- Python's `os.path.join(a, b)` for the cases this server exercises: an
absolute `b` replaces `a`; otherwise the parts are joined with exactly one
separator. -/
def osPathJoin (a b : String) : String :=
  if strBeginsWith "/" b then b
  else if a == "" then b
  else if strFinishesWith "/" a then a ++ b
  else a ++ "/" ++ b

/-- Lines 61–66 of `do_GET`: `/` or the empty path becomes `/index.html`,
then the path with leading slashes stripped is joined under the directory
containing the server script (`root`).  No query-string handling occurs. -/
def resolvePath (root path : String) : String :=
  let p := if path == "/" || path == "" then "/index.html" else path
  osPathJoin root (lstripSlashes p)

/-- Filesystem lookup: `some contents` exactly when `os.path.isfile` holds. -/
def findFile : List (String × List Nat) → String → Option (List Nat)
  | [], _ => none
  | (p, c) :: rest, q => if p == q then some c else findFile rest q

/-- Lines 70–75: the `Content-Type` header chosen by the `endswith` chain —
`.html`, `.js`, `.wasm` in that order, and no header for anything else. -/
def contentTypeFor (filepath : String) : List (String × String) :=
  if strFinishesWith ".html" filepath then [("Content-Type", "text/html")]
  else if strFinishesWith ".js" filepath then [("Content-Type", "application/javascript")]
  else if strFinishesWith ".wasm" filepath then [("Content-Type", "application/wasm")]
  else []

/-- Lines 59–79: `LuaHandler.do_GET`.  An existing regular file at the
resolved path is served with HTTP 200, the extension-based `Content-Type`
(possibly none), and the file's raw bytes; otherwise HTTP 404 with an
empty body. -/
def do_GET (root : String) (fs : List (String × List Nat)) (path : String) : Response :=
  let filepath := resolvePath root path
  match findFile fs filepath with
  | some content =>
      { statusCode := 200, headers := contentTypeFor filepath, body := .fileBytes content }
  | none => { statusCode := 404, headers := [], body := .empty }

/-- The `send_error(501, "Unsupported method (%r)")` response produced by
`BaseHTTPRequestHandler.handle_one_request` when no `do_<METHOD>` attribute
exists; `send_error` emits an HTML error page with these headers. -/
def unsupportedMethod (m : String) : Response :=
  { statusCode := 501,
    headers := [("Content-Type", "text/html;charset=utf-8"), ("Connection", "close")],
    body := .errorPage ("Unsupported method ('" ++ m ++ "')") }

/-- Full request dispatch of `LuaHandler`: the standard library routes by
method name to `do_POST` or `do_GET`, and answers 501 for any method the
class does not implement. -/
def handleRequest (loads : String → Except String Json)
    (oracle : String → RunOutcome) (root : String)
    (fs : List (String × List Nat)) (req : Request) : Response :=
  if req.method == "POST" then do_POST loads oracle req
  else if req.method == "GET" then do_GET root fs req.path
  else unsupportedMethod req.method

/-- Number of body bytes read by `do_POST` on the `/api/lua` path: `none`
when `int()` raises before the read on line 18 is reached. -/
def postBytesRead (req : Request) : Option Nat :=
  match contentLengthVal req.contentLength with
  | .error _ => none
  | .ok n => some (pyRead req.body n).length

/-- Concrete JSON-parse oracle that always succeeds with a fixed value,
used to instantiate theorems at concrete inputs. -/
def loadsConst (j : Json) : String → Except String Json := fun _ => .ok j

/-- Concrete JSON-parse oracle that always fails with a fixed message. -/
def loadsFail (msg : String) : String → Except String Json := fun _ => .error msg

/-- Concrete subprocess oracle with a fixed outcome. -/
def oracleConst (o : RunOutcome) : String → RunOutcome := fun _ => o

/-- A POST request to `/api/lua` with the given `Content-Length` header and
body stream. -/
def reqLua (cl : Option String) (b : String) : Request :=
  { method := "POST", path := "/api/lua", contentLength := cl, body := b }

/-- C1: for every POST to `/api/lua` whose body parses as a JSON object and
whose subprocess invocation completes within the timeout, the response's
`result` field is the captured stdout when the exit code is 0 and the
captured stderr otherwise, and in both cases the HTTP status and the JSON
`status` field are 200. -/
theorem c1_completed_maps_to_200
    (loads : String → Except String Json) (oracle : String → RunOutcome)
    (req : Request) (n : Int) (fields : List (String × Json))
    (code out err : String) (rc : Int)
    (hpath : req.path = "/api/lua")
    (hcl : contentLengthVal req.contentLength = .ok n)
    (hparse : loads (pyRead req.body n) = .ok (.obj fields))
    (hcode : extractCode (.obj fields) = .ok (.str code))
    (hrun : oracle code = .completed rc out err) :
    do_POST loads oracle req =
      { statusCode := 200,
        headers := [("Content-Type", "application/json"),
                    ("Access-Control-Allow-Origin", "*")],
        body := .json (.obj [("result", .str (if rc == 0 then out else err)),
                             ("status", .num 200)]) } := by
  simp [do_POST, hpath, postOutcome, hcl, hparse, hcode, resultResponse, runLua,
    hrun]

/-- Witness for C1 at a concrete request, parse oracle and subprocess
oracle: the non-zero exit code selects stderr. -/
theorem c1_completed_maps_to_200_witness :
    (reqLua none "").path = "/api/lua" ∧
    contentLengthVal (reqLua none "").contentLength = .ok 0 ∧
    loadsConst (.obj [("code", .str "boom")]) (pyRead (reqLua none "").body 0) =
      .ok (.obj [("code", .str "boom")]) ∧
    extractCode (.obj [("code", .str "boom")]) = .ok (.str "boom") ∧
    oracleConst (.completed 1 "" "lua: err") "boom" = .completed 1 "" "lua: err" ∧
    do_POST (loadsConst (.obj [("code", .str "boom")]))
        (oracleConst (.completed 1 "" "lua: err")) (reqLua none "") =
      { statusCode := 200,
        headers := [("Content-Type", "application/json"),
                    ("Access-Control-Allow-Origin", "*")],
        body := .json (.obj [("result", .str (if (1 : Int) == 0 then "" else "lua: err")),
                             ("status", .num 200)]) } :=
  ⟨rfl, rfl, rfl, rfl, rfl,
   c1_completed_maps_to_200 (loadsConst (.obj [("code", .str "boom")]))
     (oracleConst (.completed 1 "" "lua: err")) (reqLua none "") 0
     [("code", .str "boom")] "boom" "" "lua: err" 1 rfl rfl rfl rfl rfl⟩

/-- C2: for every POST to `/api/lua` whose subprocess invocation raises a
timeout, the response has HTTP status 408 and body
`result = "Error: Execution timeout"`, `status = 408`. -/
theorem c2_timeout_maps_to_408
    (loads : String → Except String Json) (oracle : String → RunOutcome)
    (req : Request) (n : Int) (fields : List (String × Json)) (code : String)
    (hpath : req.path = "/api/lua")
    (hcl : contentLengthVal req.contentLength = .ok n)
    (hparse : loads (pyRead req.body n) = .ok (.obj fields))
    (hcode : extractCode (.obj fields) = .ok (.str code))
    (hrun : oracle code = .timeoutExpired) :
    do_POST loads oracle req =
      { statusCode := 408,
        headers := [("Content-Type", "application/json"),
                    ("Access-Control-Allow-Origin", "*")],
        body := .json (.obj [("result", .str "Error: Execution timeout"),
                             ("status", .num 408)]) } := by
  simp [do_POST, hpath, postOutcome, hcl, hparse, hcode, resultResponse, runLua,
    hrun]

/-- Witness for C2 at a concrete request with a timing-out subprocess. -/
theorem c2_timeout_maps_to_408_witness :
    (reqLua none "").path = "/api/lua" ∧
    contentLengthVal (reqLua none "").contentLength = .ok 0 ∧
    loadsConst (.obj [("code", .str "loop")]) (pyRead (reqLua none "").body 0) =
      .ok (.obj [("code", .str "loop")]) ∧
    extractCode (.obj [("code", .str "loop")]) = .ok (.str "loop") ∧
    oracleConst .timeoutExpired "loop" = .timeoutExpired ∧
    do_POST (loadsConst (.obj [("code", .str "loop")]))
        (oracleConst .timeoutExpired) (reqLua none "") =
      { statusCode := 408,
        headers := [("Content-Type", "application/json"),
                    ("Access-Control-Allow-Origin", "*")],
        body := .json (.obj [("result", .str "Error: Execution timeout"),
                             ("status", .num 408)]) } :=
  ⟨rfl, rfl, rfl, rfl, rfl,
   c2_timeout_maps_to_408 (loadsConst (.obj [("code", .str "loop")]))
     (oracleConst .timeoutExpired) (reqLua none "") 0
     [("code", .str "loop")] "loop" rfl rfl rfl rfl rfl⟩

/-- C3: for every POST to `/api/lua` whose body is not valid JSON, and more
generally whenever any step before a result response is built raises, the
response is HTTP 500 with the narrow `error` object body — not the
`result`/`status` shape. -/
theorem c3_bad_json_500_error_shape
    (loads : String → Except String Json) (oracle : String → RunOutcome)
    (req : Request)
    (hpath : req.path = "/api/lua") :
    (∀ n msg, contentLengthVal req.contentLength = .ok n →
      loads (pyRead req.body n) = .error msg →
      do_POST loads oracle req =
        { statusCode := 500,
          headers := [("Content-Type", "application/json")],
          body := .json (.obj [("error", .str msg)]) }) ∧
    (∀ msg, postOutcome loads oracle req = .error msg →
      do_POST loads oracle req =
        { statusCode := 500,
          headers := [("Content-Type", "application/json")],
          body := .json (.obj [("error", .str msg)]) }) := by
  constructor
  · intro n msg hcl hparse
    simp [do_POST, hpath, postOutcome, hcl, hparse, outerError]
  · intro msg hout
    simp [do_POST, hpath, hout, outerError]

/-- Witness for C3: a concrete malformed-JSON request produces the 500
`error`-shaped response. -/
theorem c3_bad_json_500_error_shape_witness :
    (reqLua (some "2") "ab").path = "/api/lua" ∧
    contentLengthVal (reqLua (some "2") "ab").contentLength = .ok 2 ∧
    loadsFail "Expecting value: line 1 column 1 (char 0)"
      (pyRead (reqLua (some "2") "ab").body 2) =
      .error "Expecting value: line 1 column 1 (char 0)" ∧
    do_POST (loadsFail "Expecting value: line 1 column 1 (char 0)")
        (oracleConst (.completed 0 "" "")) (reqLua (some "2") "ab") =
      { statusCode := 500,
        headers := [("Content-Type", "application/json")],
        body := .json (.obj [("error",
                  .str "Expecting value: line 1 column 1 (char 0)")]) } :=
  ⟨rfl, rfl, rfl,
   (c3_bad_json_500_error_shape
      (loadsFail "Expecting value: line 1 column 1 (char 0)")
      (oracleConst (.completed 0 "" "")) (reqLua (some "2") "ab") rfl).1
     2 "Expecting value: line 1 column 1 (char 0)" rfl rfl⟩

/-- C8: a POST to `/api/lua` whose body parses as a JSON object without a
`code` field behaves identically to one whose body parses as
`code = ""`: the extracted code is the empty string, no missing-field
error is raised, and the final responses coincide. -/
theorem c8_absent_code_defaults_empty
    (loads1 loads2 : String → Except String Json) (oracle : String → RunOutcome)
    (req : Request) (n : Int) (fields : List (String × Json))
    (hpath : req.path = "/api/lua")
    (hcl : contentLengthVal req.contentLength = .ok n)
    (h1 : loads1 (pyRead req.body n) = .ok (.obj fields))
    (hno : findField fields "code" = none)
    (h2 : loads2 (pyRead req.body n) = .ok (.obj [("code", .str "")])) :
    extractCode (.obj fields) = .ok (.str "") ∧
    do_POST loads1 oracle req = do_POST loads2 oracle req := by
  have hex : extractCode (.obj fields) = .ok (.str "") := by
    simp [extractCode, hno]
  refine ⟨hex, ?_⟩
  simp [do_POST, hpath, postOutcome, hcl, h1, h2, extractCode, hno]
  rfl

/-- Witness for C8: the empty object and the explicit empty-code object
yield the same response. -/
theorem c8_absent_code_defaults_empty_witness :
    (reqLua none "").path = "/api/lua" ∧
    contentLengthVal (reqLua none "").contentLength = .ok 0 ∧
    loadsConst (.obj []) (pyRead (reqLua none "").body 0) = .ok (.obj []) ∧
    findField [] "code" = none ∧
    loadsConst (.obj [("code", .str "")]) (pyRead (reqLua none "").body 0) =
      .ok (.obj [("code", .str "")]) ∧
    extractCode (.obj []) = .ok (.str "") ∧
    do_POST (loadsConst (.obj [])) (oracleConst (.completed 0 "" "")) (reqLua none "") =
      do_POST (loadsConst (.obj [("code", .str "")]))
        (oracleConst (.completed 0 "" "")) (reqLua none "") :=
  ⟨rfl, rfl, rfl, rfl, rfl,
   (c8_absent_code_defaults_empty (loadsConst (.obj []))
      (loadsConst (.obj [("code", .str "")])) (oracleConst (.completed 0 "" ""))
      (reqLua none "") 0 [] rfl rfl rfl rfl rfl).1,
   (c8_absent_code_defaults_empty (loadsConst (.obj []))
      (loadsConst (.obj [("code", .str "")])) (oracleConst (.completed 0 "" ""))
      (reqLua none "") 0 [] rfl rfl rfl rfl rfl).2⟩

/-- C10: a POST to `/api/lua` whose body parses as valid JSON that is not
an object makes the field extraction raise (`AttributeError`), so the
response takes the outer 500 `error` shape, not the `result`/`status`
shape. -/
theorem c10_nonobject_json_500_error_shape
    (loads : String → Except String Json) (oracle : String → RunOutcome)
    (req : Request) (n : Int) (j : Json)
    (hpath : req.path = "/api/lua")
    (hcl : contentLengthVal req.contentLength = .ok n)
    (hparse : loads (pyRead req.body n) = .ok j)
    (hnotobj : ∀ fields, j ≠ .obj fields) :
    extractCode j = .error ("'" ++ pyTypeName j ++ "' object has no attribute 'get'") ∧
    do_POST loads oracle req =
      { statusCode := 500,
        headers := [("Content-Type", "application/json")],
        body := .json (.obj [("error",
          .str ("'" ++ pyTypeName j ++ "' object has no attribute 'get'"))]) } := by
  have hex : extractCode j =
      .error ("'" ++ pyTypeName j ++ "' object has no attribute 'get'") := by
    cases j with
    | obj fields => exact absurd rfl (hnotobj fields)
    | null => rfl
    | bool b => rfl
    | num k => rfl
    | str s => rfl
    | arr xs => rfl
  refine ⟨hex, ?_⟩
  simp [do_POST, hpath, postOutcome, hcl, hparse, hex, outerError]

/-- Witness for C10: a JSON array body produces the 500 `error` response. -/
theorem c10_nonobject_json_500_error_shape_witness :
    (reqLua (some "2") "[]").path = "/api/lua" ∧
    contentLengthVal (reqLua (some "2") "[]").contentLength = .ok 2 ∧
    loadsConst (.arr []) (pyRead (reqLua (some "2") "[]").body 2) = .ok (.arr []) ∧
    (∀ fields, Json.arr [] ≠ .obj fields) ∧
    do_POST (loadsConst (.arr [])) (oracleConst (.completed 0 "" ""))
        (reqLua (some "2") "[]") =
      { statusCode := 500,
        headers := [("Content-Type", "application/json")],
        body := .json (.obj [("error",
          .str "'list' object has no attribute 'get'")]) } :=
  ⟨rfl, rfl, rfl, fun _ h => Json.noConfusion h,
   (c10_nonobject_json_500_error_shape (loadsConst (.arr []))
      (oracleConst (.completed 0 "" "")) (reqLua (some "2") "[]") 2 (.arr [])
      rfl rfl rfl (fun _ h => Json.noConfusion h)).2⟩

/-- C4 counterexample: with `Content-Length: abc` the handler does not read
zero bytes of body — `int('abc')` raises on line 17 before the read on
line 18 is ever reached (`postBytesRead` is `none`, not `some 0`), and the
request is answered by the outer 500 `error` response carrying the
`ValueError` message. -/
theorem c4_counterexample :
    pyIntParse "abc" =
      .error "invalid literal for int() with base 10: 'abc'" ∧
    postBytesRead (reqLua (some "abc") "body-bytes") ≠ some 0 ∧
    postBytesRead (reqLua (some "abc") "body-bytes") = none ∧
    do_POST (loadsConst (.obj [])) (oracleConst (.completed 0 "" ""))
        (reqLua (some "abc") "body-bytes") =
      outerError "invalid literal for int() with base 10: 'abc'" :=
  ⟨rfl, fun h => Option.noConfusion h, rfl, rfl⟩

/-- C4 amended: a missing `Content-Length` header is treated as zero bytes
to read, but a present non-numeric one is not — `int()` raises before the
read, and the POST is answered with the outer 500 `error` response carrying
the `ValueError` message. -/
theorem c4_amended_missing_length_reads_zero
    (loads : String → Except String Json) (oracle : String → RunOutcome)
    (req : Request)
    (hpath : req.path = "/api/lua") :
    (req.contentLength = none → postBytesRead req = some 0) ∧
    (∀ s m, req.contentLength = some s → pyIntParse s = .error m →
      postBytesRead req = none ∧ do_POST loads oracle req = outerError m) := by
  constructor
  · intro hnone
    simp [postBytesRead, contentLengthVal, hnone, pyRead, String.length]
  · intro s m hsome hbad
    constructor
    · simp [postBytesRead, contentLengthVal, hsome, hbad]
    · simp [do_POST, hpath, postOutcome, contentLengthVal, hsome, hbad]

/-- Witness for the amended C4: a missing header reads zero bytes, and a
concrete non-numeric header produces the 500 `error` response with no read. -/
theorem c4_amended_missing_length_reads_zero_witness :
    (reqLua none "xyz").path = "/api/lua" ∧
    postBytesRead (reqLua none "xyz") = some 0 ∧
    ((reqLua (some "5x") "xyz").path = "/api/lua" ∧
     (reqLua (some "5x") "xyz").contentLength = some "5x" ∧
     pyIntParse "5x" = .error "invalid literal for int() with base 10: '5x'" ∧
     postBytesRead (reqLua (some "5x") "xyz") = none ∧
     do_POST (loadsConst (.obj [])) (oracleConst (.completed 0 "" ""))
         (reqLua (some "5x") "xyz") =
       outerError "invalid literal for int() with base 10: '5x'") :=
  ⟨rfl,
   (c4_amended_missing_length_reads_zero (loadsConst (.obj []))
      (oracleConst (.completed 0 "" "")) (reqLua none "xyz") rfl).1 rfl,
   rfl, rfl, rfl,
   ((c4_amended_missing_length_reads_zero (loadsConst (.obj []))
      (oracleConst (.completed 0 "" "")) (reqLua (some "5x") "xyz") rfl).2
     "5x" "invalid literal for int() with base 10: '5x'" rfl rfl).1,
   ((c4_amended_missing_length_reads_zero (loadsConst (.obj []))
      (oracleConst (.completed 0 "" "")) (reqLua (some "5x") "xyz") rfl).2
     "5x" "invalid literal for int() with base 10: '5x'" rfl rfl).2⟩

/-- C5 counterexample: not every `/api/lua` response carries
`Access-Control-Allow-Origin: *` — the outer 500 `error` response for a
malformed-JSON body sends only `Content-Type`, so the header is absent
there. -/
theorem c5_counterexample :
    (reqLua (some "2") "ab").path = "/api/lua" ∧
    (do_POST (loadsFail "Expecting value: line 1 column 1 (char 0)")
        (oracleConst (.completed 0 "" "")) (reqLua (some "2") "ab")).headers =
      [("Content-Type", "application/json")] ∧
    ("Access-Control-Allow-Origin", "*") ∉
      (do_POST (loadsFail "Expecting value: line 1 column 1 (char 0)")
        (oracleConst (.completed 0 "" "")) (reqLua (some "2") "ab")).headers := by
  refine ⟨rfl, rfl, ?_⟩
  decide

/-- C5 amended: every response built on the result path — exit code 0 or
non-zero, timeout, missing interpreter, other subprocess fault — carries
both `Content-Type: application/json` and `Access-Control-Allow-Origin: *`;
the outer 500 `error` response carries only `Content-Type:
application/json` and lacks the CORS header. -/
theorem c5_amended_cors_on_result_path_only
    (oracle : String → RunOutcome) (code : Json) (msg : String) :
    ("Access-Control-Allow-Origin", "*") ∈ (resultResponse oracle code).headers ∧
    ("Content-Type", "application/json") ∈ (resultResponse oracle code).headers ∧
    (outerError msg).headers = [("Content-Type", "application/json")] ∧
    ("Access-Control-Allow-Origin", "*") ∉ (outerError msg).headers := by
  refine ⟨?_, ?_, rfl, ?_⟩
  · simp [resultResponse]
  · simp [resultResponse]
  · intro hmem
    simp [outerError] at hmem

/-- C6 counterexample: `DELETE /api/lua` is not answered with 404 — the
handler class defines no `do_DELETE`, so the base request machinery sends
`501 Unsupported method`, with an HTML error page rather than an empty
body. -/
theorem c6_counterexample :
    (handleRequest (loadsConst (.obj [])) (oracleConst (.completed 0 "" ""))
        "/srv" []
        { method := "DELETE", path := "/api/lua", contentLength := none,
          body := "" }).statusCode = 501 ∧
    (501 : Nat) ≠ 404 := by
  exact ⟨rfl, by decide⟩

/-- C6 amended: a POST to any path other than `/api/lua` is answered with
HTTP 404, no headers, and an empty body; a request whose method is neither
POST nor GET is answered by the standard library's
`501 Unsupported method` error response, not a 404. -/
theorem c6_amended_unmatched_dispatch
    (loads : String → Except String Json) (oracle : String → RunOutcome)
    (root : String) (fs : List (String × List Nat)) (req : Request) :
    (req.method = "POST" → req.path ≠ "/api/lua" →
      handleRequest loads oracle root fs req =
        { statusCode := 404, headers := [], body := .empty }) ∧
    (req.method ≠ "POST" → req.method ≠ "GET" →
      handleRequest loads oracle root fs req = unsupportedMethod req.method ∧
      (unsupportedMethod req.method).statusCode = 501) := by
  constructor
  · intro hm hp
    have hpb : (req.path == "/api/lua") = false := beq_eq_false_iff_ne.mpr hp
    simp [handleRequest, hm, do_POST, hpb]
  · intro hm hg
    have hmb : (req.method == "POST") = false := beq_eq_false_iff_ne.mpr hm
    have hgb : (req.method == "GET") = false := beq_eq_false_iff_ne.mpr hg
    simp [handleRequest, hmb, hgb, unsupportedMethod]

/-- Witness for the amended C6: `POST /other` gets the 404 empty response,
and `PUT /api/lua` gets the 501 unsupported-method response. -/
theorem c6_amended_unmatched_dispatch_witness :
    ({ method := "POST", path := "/other", contentLength := none,
       body := "" } : Request).method = "POST" ∧
    ({ method := "POST", path := "/other", contentLength := none,
       body := "" } : Request).path ≠ "/api/lua" ∧
    handleRequest (loadsConst (.obj [])) (oracleConst (.completed 0 "" "")) "/srv" []
        { method := "POST", path := "/other", contentLength := none, body := "" } =
      { statusCode := 404, headers := [], body := .empty } ∧
    ({ method := "PUT", path := "/api/lua", contentLength := none,
       body := "" } : Request).method ≠ "POST" ∧
    ({ method := "PUT", path := "/api/lua", contentLength := none,
       body := "" } : Request).method ≠ "GET" ∧
    handleRequest (loadsConst (.obj [])) (oracleConst (.completed 0 "" "")) "/srv" []
        { method := "PUT", path := "/api/lua", contentLength := none, body := "" } =
      unsupportedMethod "PUT" :=
  ⟨rfl, by decide, (c6_amended_unmatched_dispatch (loadsConst (.obj []))
      (oracleConst (.completed 0 "" "")) "/srv" []
      { method := "POST", path := "/other", contentLength := none, body := "" }).1
      rfl (by decide),
   by decide, by decide,
   ((c6_amended_unmatched_dispatch (loadsConst (.obj []))
      (oracleConst (.completed 0 "" "")) "/srv" []
      { method := "PUT", path := "/api/lua", contentLength := none, body := "" }).2
      (by decide) (by decide)).1⟩

/-- C7: for every GET request, `/` or the empty path is treated as
`/index.html`; when the resolved path under the server root names an
existing regular file the response is HTTP 200 with the file's raw bytes
and a `Content-Type` of `text/html`, `application/javascript` or
`application/wasm` for the `.html`, `.js`, `.wasm` extensions respectively
(no `Content-Type` header for any other extension); otherwise the response
is HTTP 404 with an empty body. -/
theorem c7_static_file_serving
    (root : String) (fs : List (String × List Nat)) (path fp : String) :
    (do_GET root fs "/" = do_GET root fs "/index.html" ∧
     do_GET root fs "" = do_GET root fs "/index.html") ∧
    (∀ content, findFile fs (resolvePath root path) = some content →
      do_GET root fs path =
        { statusCode := 200, headers := contentTypeFor (resolvePath root path),
          body := .fileBytes content }) ∧
    (findFile fs (resolvePath root path) = none →
      do_GET root fs path =
        { statusCode := 404, headers := [], body := .empty }) ∧
    (strFinishesWith ".html" fp = true →
      contentTypeFor fp = [("Content-Type", "text/html")]) ∧
    (strFinishesWith ".html" fp = false → strFinishesWith ".js" fp = true →
      contentTypeFor fp = [("Content-Type", "application/javascript")]) ∧
    (strFinishesWith ".html" fp = false → strFinishesWith ".js" fp = false →
      strFinishesWith ".wasm" fp = true →
      contentTypeFor fp = [("Content-Type", "application/wasm")]) ∧
    (strFinishesWith ".html" fp = false → strFinishesWith ".js" fp = false →
      strFinishesWith ".wasm" fp = false → contentTypeFor fp = []) := by
  refine ⟨⟨?_, ?_⟩, ?_, ?_, ?_, ?_, ?_, ?_⟩
  · simp [do_GET, resolvePath]
  · simp [do_GET, resolvePath]
  · intro content hfound
    simp [do_GET, hfound]
  · intro hnone
    simp [do_GET, hnone]
  · intro h
    simp [contentTypeFor, h]
  · intro h1 h2
    simp [contentTypeFor, h1, h2]
  · intro h1 h2 h3
    simp [contentTypeFor, h1, h2, h3]
  · intro h1 h2 h3
    simp [contentTypeFor, h1, h2, h3]

/-- Witness for C7 over a concrete root and filesystem holding
`index.html`, `app.js` and `data.bin`: the index rewrite, the three served
files with their content types (none for `.bin`), and a 404 miss. -/
theorem c7_static_file_serving_witness :
    do_GET "/srv" [("/srv/index.html", [60]), ("/srv/app.js", [102]),
        ("/srv/data.bin", [0])] "/" =
      do_GET "/srv" [("/srv/index.html", [60]), ("/srv/app.js", [102]),
        ("/srv/data.bin", [0])] "/index.html" ∧
    findFile [("/srv/index.html", [60]), ("/srv/app.js", [102]),
        ("/srv/data.bin", [0])] (resolvePath "/srv" "/index.html") = some [60] ∧
    do_GET "/srv" [("/srv/index.html", [60]), ("/srv/app.js", [102]),
        ("/srv/data.bin", [0])] "/index.html" =
      { statusCode := 200, headers := [("Content-Type", "text/html")],
        body := .fileBytes [60] } ∧
    do_GET "/srv" [("/srv/index.html", [60]), ("/srv/app.js", [102]),
        ("/srv/data.bin", [0])] "/app.js" =
      { statusCode := 200, headers := [("Content-Type", "application/javascript")],
        body := .fileBytes [102] } ∧
    do_GET "/srv" [("/srv/index.html", [60]), ("/srv/app.js", [102]),
        ("/srv/data.bin", [0])] "/data.bin" =
      { statusCode := 200, headers := [], body := .fileBytes [0] } ∧
    findFile [("/srv/index.html", [60]), ("/srv/app.js", [102]),
        ("/srv/data.bin", [0])] (resolvePath "/srv" "/missing.file") = none ∧
    do_GET "/srv" [("/srv/index.html", [60]), ("/srv/app.js", [102]),
        ("/srv/data.bin", [0])] "/missing.file" =
      { statusCode := 404, headers := [], body := .empty } := by
  refine ⟨(c7_static_file_serving "/srv" [("/srv/index.html", [60]),
      ("/srv/app.js", [102]), ("/srv/data.bin", [0])] "/" "").1.1,
    rfl, ?_, ?_, ?_, rfl, ?_⟩
  · have h := (c7_static_file_serving "/srv" [("/srv/index.html", [60]),
      ("/srv/app.js", [102]), ("/srv/data.bin", [0])] "/index.html" "").2.1 [60] rfl
    exact h.trans (by rfl)
  · have h := (c7_static_file_serving "/srv" [("/srv/index.html", [60]),
      ("/srv/app.js", [102]), ("/srv/data.bin", [0])] "/app.js" "").2.1 [102] rfl
    exact h.trans (by rfl)
  · have h := (c7_static_file_serving "/srv" [("/srv/index.html", [60]),
      ("/srv/app.js", [102]), ("/srv/data.bin", [0])] "/data.bin" "").2.1 [0] rfl
    exact h.trans (by rfl)
  · exact (c7_static_file_serving "/srv" [("/srv/index.html", [60]),
      ("/srv/app.js", [102]), ("/srv/data.bin", [0])] "/missing.file" "").2.2.1 rfl

/-- C9: for every GET request whose path contains a query string, the
query string is not stripped before filesystem resolution — the full path
including the `?...` part (with only leading slashes removed) is joined
under the root directory, so the request is answered 404 whenever no file
bears that literal name, even when the file named by the part before the
`?` exists. -/
theorem c9_query_string_not_stripped
    (root path : String) (fs : List (String × List Nat))
    (hq : '?' ∈ path.data) :
    resolvePath root path = osPathJoin root (lstripSlashes path) ∧
    (findFile fs (osPathJoin root (lstripSlashes path)) = none →
      do_GET root fs path =
        { statusCode := 404, headers := [], body := .empty }) := by
  have h1 : (path == "/") = false := by
    apply beq_eq_false_iff_ne.mpr
    intro h
    subst h
    exact absurd hq (by decide)
  have h2 : (path == "") = false := by
    apply beq_eq_false_iff_ne.mpr
    intro h
    subst h
    exact absurd hq (by decide)
  have hres : resolvePath root path = osPathJoin root (lstripSlashes path) := by
    simp [resolvePath, h1, h2]
  refine ⟨hres, ?_⟩
  intro hnone
  simp [do_GET, hres, hnone]

/-- Witness for C9 at `GET /index.html?x=1` over a filesystem holding
exactly `index.html` under the root: the resolved path keeps the query
string and the response is a 404 with an empty body, even though
`index.html` itself exists. -/
theorem c9_query_string_not_stripped_witness :
    '?' ∈ "/index.html?x=1".data ∧
    findFile [("/srv/index.html", [60])] (osPathJoin "/srv" "index.html") =
      some [60] ∧
    findFile [("/srv/index.html", [60])]
      (osPathJoin "/srv" (lstripSlashes "/index.html?x=1")) = none ∧
    resolvePath "/srv" "/index.html?x=1" =
      osPathJoin "/srv" (lstripSlashes "/index.html?x=1") ∧
    do_GET "/srv" [("/srv/index.html", [60])] "/index.html?x=1" =
      { statusCode := 404, headers := [], body := .empty } :=
  ⟨by decide, rfl, rfl,
   (c9_query_string_not_stripped "/srv" "/index.html?x=1"
      [("/srv/index.html", [60])] (by decide)).1,
   (c9_query_string_not_stripped "/srv" "/index.html?x=1"
      [("/srv/index.html", [60])] (by decide)).2 rfl⟩
